import Mathlib

/-!
Verification of the grading / composite-index aggregation logic of the
Big-Data-Campus heat-wave analysis scripts.

The scripts classify numeric measurements into ordered grade labels with
`pd.cut` / `pd.qcut`, turn grade labels into numeric codes with
`pd.factorize`, combine the codes into weighted composite scores, and
aggregate value columns by grouping keys with `groupby(...).sum()`.
The definitions below embed that logic over exact rationals; each
doc comment of each definition names the source location it is translated from.
-/

namespace BigData

/-! ## Interval classification (`pd.cut`) -/

/-- Number of elements of the list strictly below `v`.  This is
`numpy.searchsorted(edges, v, side=left)` for an ascending edge list,
the primitive `pd.cut` uses to locate a value among the bin edges. -/
def countLt (v : ℚ) : List ℚ → ℕ
  | [] => 0
  | e :: rest => (if e < v then 1 else 0) + countLt v rest

/-- A grading scale as used by the scripts through `pd.cut`: an ascending
list of finite bin edges and one label per interval.  `hasNegInfLower`
records whether the lowest entry of the `bins=[...]` list is `-inf`
(as in the heat-risk scale `bins=[-inf, 25, 28, 31, 35, inf]`); the top
entry is `inf` in every scale of the scripts, so it is left implicit.
`cuts` holds the remaining (finite) entries of `bins`. -/
structure GradeScale where
  hasNegInfLower : Bool
  cuts : List ℚ
  labels : List String
deriving DecidableEq

/-- `pd.cut(v, bins, labels, right=True)` on a single finite value:
intervals are left-exclusive / right-inclusive, and a value at or below
the lowest finite edge (when that edge is not `-inf`) gets no label
(pandas yields NaN there, and NaN above the top finite edge, which for
these scales is `inf` and so unreachable for finite input). -/
def classify (s : GradeScale) (v : ℚ) : Option String :=
  let c := countLt v s.cuts
  if s.hasNegInfLower then s.labels.get? c
  else if c = 0 then none
  else s.labels.get? (c - 1)

/-- Heat-wave risk scale: `heatwave_analysis_utf8.py` lines 149-153
(`bins=[-inf, 25, 28, 31, 35, inf]`); identical in
`old_codes/final_analysis_korean.py` lines 122-126. -/
def heatRiskScale : GradeScale :=
  { hasNegInfLower := true
    cuts := [25, 28, 31, 35]
    labels := ["안전", "주의", "경고", "위험", "매우위험"] }

/-- Discomfort-index grade scale: `heatwave_analysis_utf8.py` lines
167-171 (`bins=[0, 68, 75, 80, 85, inf]`). -/
def discomfortScale : GradeScale :=
  { hasNegInfLower := false
    cuts := [0, 68, 75, 80, 85]
    labels := ["쾌적", "보통", "약간불쾌", "불쾌", "매우불쾌"] }

/-- Family-structure grade scale: `heatwave_analysis_utf8.py` lines 94-98
(`bins=[0, 2.0, 2.5, 3.0, inf]`).  The edge `2.5` is written as the raw
rational `⟨5, 2, _, _⟩` so that it stays kernel-computable. -/
def familyScale : GradeScale :=
  { hasNegInfLower := false
    cuts := [0, 2, ⟨5, 2, by decide, by decide⟩, 3]
    labels := ["1인가구형", "소가족형", "일반가족형", "대가족형"] }

/-- UV risk scale: `old_codes/final_analysis_korean.py` lines 142-146
(`bins=[0, 2, 5, 7, 10, inf]`). -/
def uvScale : GradeScale :=
  { hasNegInfLower := false
    cuts := [0, 2, 5, 7, 10]
    labels := ["낮음", "보통", "높음", "매우높음", "위험"] }

/-- The grade scales applied through `pd.cut` by the analysis scripts. -/
def programScales : List GradeScale :=
  [heatRiskScale, discomfortScale, familyScale, uvScale]

/-! ## Discomfort index (불쾌지수) -/

/-- Discomfort index of `heatwave_analysis_utf8.py` lines 161-165. -/
def discomfortIndexUtf8 (t h : ℚ) : ℚ :=
  0.81 * t + 0.01 * h * (0.99 * t - 14.3) + 46.3

/-- Discomfort index of `old_codes/final_analysis_korean.py` lines 129-133. -/
def discomfortIndexKorean (t h : ℚ) : ℚ :=
  0.81 * t + 0.01 * h * (0.99 * t - 14.3) + 46.3

/-- Discomfort index of `old_codes/data_processing_final.py` lines 125-129. -/
def discomfortIndexFinal (t h : ℚ) : ℚ :=
  0.81 * t + 0.01 * h * (0.99 * t - 14.3) + 46.3

/-- Discomfort index of `old_codes/data_processing_pipeline.py` lines 171-173. -/
def discomfortIndexPipeline (t h : ℚ) : ℚ :=
  0.81 * t + 0.01 * h * (0.99 * t - 14.3) + 46.3

/-! ## Quantile binning (`pd.qcut(..., duplicates=drop)`) -/

/-- Value of a sorted sample at fractional position `h` (0-based), by
linear interpolation between the neighbouring order statistics: for
`⌊h⌋ = j` this is `x[j] + (h - j) * (x[j+1] - x[j])`, the
linear-interpolation quantile estimator numpy/pandas use inside
`qcut`.  Implemented by walking the list, subtracting 1 from `h` per
step, which computes exactly that piecewise-linear function. -/
def interp : List ℚ → ℚ → ℚ
  | [], _ => 0
  | [a], _ => a
  | a :: b :: rest, h => if h ≤ 1 then a + h * (b - a) else interp (b :: rest) (h - 1)

/-- Empirical `p`-quantile of a column: position `h = (n - 1) * p` of the
sorted values (the numpy default linear-interpolation quantile). -/
def quantileOf (col : List ℚ) (p : ℚ) : ℚ :=
  interp (List.insertionSort (· ≤ ·) col) ((col.length - 1 : ℚ) * p)

/-- The `q + 1` candidate bin edges of `pd.qcut(col, q)`: quantiles at
`0, 1/q, 2/q, …, 1`. -/
def qcutEdges (col : List ℚ) (q : ℕ) : List ℚ :=
  (List.range (q + 1)).map fun i => quantileOf col ((i : ℚ) / (q : ℚ))

/-- Collapse equal adjacent entries of an ascending edge list — the
effect of `duplicates=drop` (pandas applies `np.unique` to the sorted
edge array). -/
def dedupAdj : List ℚ → List ℚ
  | [] => []
  | [e] => [e]
  | e1 :: e2 :: rest => if e1 = e2 then dedupAdj (e2 :: rest) else e1 :: dedupAdj (e2 :: rest)

/-- Bin lookup of one value against the final edge list of `qcut`:
first interval is closed on both sides (`include_lowest=True`), the
rest are left-exclusive / right-inclusive. -/
def qcutAssign (edges : List ℚ) (labels : List String) (v : ℚ) : Option String :=
  match edges with
  | [] => none
  | e0 :: rest => if v < e0 then none else labels.get? (countLt v rest)

/-- `pd.qcut(col, q, labels=labels, duplicates=drop)` as called in
`heatwave_analysis_utf8.py` lines 86-91 and `old_codes/run_analysis.py`
lines 50-51: compute the quantile edges, drop duplicate edges, and —
exactly as pandas `_bins_to_cuts` does — raise
`ValueError: Bin labels must be one fewer than the number of bin edges` when the explicit
label list no longer matches the number of remaining bins. -/
def pdQcut (col : List ℚ) (q : ℕ) (labels : List String) :
    Except String (List (Option String)) :=
  let edges := dedupAdj (qcutEdges col q)
  if edges.length = labels.length + 1 then .ok (col.map (qcutAssign edges labels))
  else .error "Bin labels must be one fewer than the number of bin edges"

/-! ## `pd.factorize` and the composite vulnerability score -/

/-- Helper for `pd.factorize`: `seen` is the list of distinct labels
already encountered, in order of first appearance.  A missing value
(pandas NaN, here `none`) gets the sentinel code `-1`. -/
def factorizeFrom (seen : List String) : List (Option String) → List ℤ
  | [] => []
  | none :: rest => -1 :: factorizeFrom seen rest
  | some s :: rest =>
    if s ∈ seen then (seen.indexOf s : ℤ) :: factorizeFrom seen rest
    else (seen.length : ℤ) :: factorizeFrom (seen ++ [s]) rest

/-- `pd.factorize(column)[0]`: each value is coded by the 0-based index
of its first appearance in the column (NaN → `-1`). -/
def pdFactorize (xs : List (Option String)) : List ℤ :=
  factorizeFrom [] xs

/-- The five density-grade labels of the `pd.qcut` calls
(`heatwave_analysis_utf8.py` line 89). -/
def densityLabels : List String := ["매우낮음", "낮음", "보통", "높음", "매우높음"]

/-- The composite vulnerability score pipeline of
`heatwave_analysis_utf8.py` lines 86-103, applied to the total-population
column (`iloc[:, 3]`) and households-average column (`iloc[:, 5]`):
`pd.qcut` density grades, `pd.cut` family grades, `pd.factorize` codes
(+1), then `(density_score * 0.6 + family_score * 0.4) * 20` per row. -/
def vulnerabilityScores (totalPop householdAvg : List ℚ) : Except String (List ℚ) :=
  (pdQcut totalPop 5 densityLabels).map fun density =>
    let family := householdAvg.map (classify familyScale)
    let densityScore : List ℤ := (pdFactorize density).map (· + 1)
    let familyScore : List ℤ := (pdFactorize family).map (· + 1)
    List.zipWith (fun d f => ((d : ℚ) * 0.6 + (f : ℚ) * 0.4) * 20) densityScore familyScore

/-- Follows the words of the spec (§4.3, §8): each grade label is converted to
its 1-based rank within the declared label sequence of its originating scale
and the composite is `scale_factor × Σ(rank_i × weight_i)` with weights
0.6/0.4 and scale factor 20.  Stated for comparison against
`vulnerabilityScores`, which is what the code computes. -/
def specVulnerabilityScore (densityLabel familyLabel : String) : ℚ :=
  20 * (0.6 * ((densityLabels.indexOf densityLabel : ℚ) + 1) +
        0.4 * ((familyScale.labels.indexOf familyLabel : ℚ) + 1))

/-! ## Grouped aggregation (`groupby(...).sum()`) -/

/-- Lexicographic byte order on group keys, the order pandas uses when
sorting a string group index.  (Phrased on the underlying character
lists so that it is kernel-computable.) -/
def keyLe (a b : String) : Prop := a.data ≤ b.data

instance : DecidableRel keyLe := fun a b => inferInstanceAs (Decidable (a.data ≤ b.data))

instance : IsTotal String keyLe := ⟨fun a b => le_total a.data b.data⟩

instance : IsTrans String keyLe := ⟨fun _ _ _ => le_trans (α := List Char)⟩

/-- The grouping keys in order of first appearance in the batch. -/
def firstSeenKeys (rows : List (String × ℚ)) : List String :=
  rows.foldl (fun acc r => if r.1 ∈ acc then acc else acc ++ [r.1]) []

/-- Sum of the value field over the rows carrying the given key. -/
def sumForKey (rows : List (String × ℚ)) (k : String) : ℚ :=
  ((rows.filter fun r => r.1 == k).map fun r => r.2).sum

/-- `df.groupby(key)[value].sum()` with the default `sort=True`, as in
`250917_SampleCode.py` lines 58-60 and
`old_codes/final_analysis_korean.py` line 193: partition the rows by
key, sum the value field per partition, and return the partitions in
ascending key order (pandas sorts the group index by default). -/
def groupbySum (rows : List (String × ℚ)) : List (String × ℚ) :=
  (List.insertionSort keyLe (firstSeenKeys rows)).map fun k => (k, sumForKey rows k)

/-! ## CompositeIndex weight validation (spec §4.3) -/

/-- Modelled from the spec: §4.3 and §7 describe a `CompositeIndex`
constructor that fails with `InvalidWeightError` when the weights do not
sum to 1.0 within 1e-6; no such validation exists anywhere in `src/`
(the scripts hardcode their weights), so this definition follows the
words of the spec. -/
def mkCompositeIndex (weights : List ℚ) : Except String (List ℚ) :=
  if |weights.sum - 1| ≤ 1 / 1000000 then .ok weights else .error "InvalidWeightError"

/-- Weights of the vulnerability composite, `heatwave_analysis_utf8.py`
line 103 (`density * 0.6 + family * 0.4`). -/
def vulnerabilityWeights : List ℚ := [0.6, 0.4]

/-- Weights of the environmental-risk composite,
`old_codes/data_processing_final.py` line 149
(`temp * 0.5 + comfort * 0.3 + uv * 0.2`). -/
def environmentalRiskWeights : List ℚ := [0.5, 0.3, 0.2]

/-- Weight of the single-factor vulnerability score,
`old_codes/run_analysis.py` line 55 (`density_score * 20`). -/
def runAnalysisWeights : List ℚ := [1]

/-! ## Script state: in-place column assignment -/

/-- A cell of a loaded table: the scripts mix numeric columns and
categorical (grade-label) columns; a categorical cell may be NaN. -/
inductive Val
  | num (q : ℚ)
  | cat (s : Option String)
deriving DecidableEq

/-- A named column of a loaded table. -/
abbrev Column := String × List Val

/-- The mutable state a script object carries across method calls:
`self.pop_data` and `self.results`
(`heatwave_analysis_utf8.py` lines 29-31, 42-46, 114). -/
structure AnalysisState where
  popData : List Column
  results : List (String × List Column)
deriving DecidableEq

/-- Numeric reading of the cells of a column. -/
def colNums (c : List Val) : List ℚ :=
  c.map fun v => match v with | .num q => q | .cat _ => 0

/-- `df[name] = vals` on a column-list table: pandas column assignment
overwrites the column in place when a column of that name already
exists, and appends a new column at the end otherwise. -/
def setCol (table : List Column) (name : String) (vals : List Val) : List Column :=
  match table with
  | [] => [(name, vals)]
  | c :: rest => if c.1 = name then (name, vals) :: rest else c :: setCol rest name vals

/-- The three column names `analyze_population_vulnerability` assigns
onto `self.pop_data` (`heatwave_analysis_utf8.py` lines 86, 94, 103). -/
def derivedColumnNames : List String := ["인구밀도등급", "가족구조지수", "취약성점수"]

/-- `HeatWaveAnalysisUTF8.analyze_population_vulnerability`
(`heatwave_analysis_utf8.py` lines 73-115, data-flow part): reads
`self.pop_data.iloc[:, 3]` and `iloc[:, 5]`, computes the density-grade,
family-grade and score columns, assigns all three onto `self.pop_data`
in place (`setCol`: overwrite when present, append otherwise), and
stores the mutated table in `self.results[population_analysis]`. -/
def analyzePopulationVulnerability (st : AnalysisState) : Except String AnalysisState :=
  let totalPop := colNums (((st.popData.get? 3).map Prod.snd).getD [])
  let householdAvg := colNums (((st.popData.get? 5).map Prod.snd).getD [])
  (pdQcut totalPop 5 densityLabels).map fun density =>
    let family := householdAvg.map (classify familyScale)
    let densityScore : List ℤ := (pdFactorize density).map (· + 1)
    let familyScore : List ℤ := (pdFactorize family).map (· + 1)
    let scores := List.zipWith (fun d f => ((d : ℚ) * 0.6 + (f : ℚ) * 0.4) * 20)
      densityScore familyScore
    let newPop :=
      setCol (setCol (setCol st.popData "인구밀도등급" (density.map Val.cat))
        "가족구조지수" (family.map Val.cat)) "취약성점수" (scores.map Val.num)
    { popData := newPop, results := st.results ++ [("population_analysis", newPop)] }

/-- The `self.pop_data` attribute after `analyze_population_vulnerability`
returns (unchanged when the call raises). -/
def popDataAfterAnalysis (st : AnalysisState) : List Column :=
  match analyzePopulationVulnerability st with
  | .ok st2 => st2.popData
  | .error _ => st.popData

/-- A concrete loaded population table in the shape
`analyze_population_vulnerability` expects: column 3 is the
total-population column (`iloc[:, 3]`), column 5 the households-average
column (`iloc[:, 5]`). -/
def examplePopTable : List Column :=
  [("행정동코드", [Val.num 11110, Val.num 11140]),
   ("지역명", [Val.cat (some "종로구"), Val.cat (some "중구")]),
   ("세대수", [Val.num 50, Val.num 80]),
   ("총인구수", [Val.num 200, Val.num 100]),
   ("남성인구수", [Val.num 95, Val.num 55]),
   ("세대당평균인구", [Val.num 4, Val.num 1])]

/-- Script state holding `examplePopTable`, before any analysis ran. -/
def exampleState : AnalysisState :=
  { popData := examplePopTable, results := [] }

/-- `examplePopTable` after `analyze_population_vulnerability`: the three
derived columns are appended to the stored table. -/
def analyzedPopTable : List Column :=
  examplePopTable ++
    [("인구밀도등급", [Val.cat (some "매우높음"), Val.cat (some "매우낮음")]),
     ("가족구조지수", [Val.cat (some "대가족형"), Val.cat (some "1인가구형")]),
     ("취약성점수", [Val.num 20, Val.num 40])]

/-! ## General lemmas -/

theorem countLt_le_length (v : ℚ) : ∀ l : List ℚ, countLt v l ≤ l.length := by
  intro l
  induction l with
  | nil => simp [countLt]
  | cons e rest ih =>
    simp only [countLt, List.length_cons]
    split <;> omega

theorem countLt_mono {v1 v2 : ℚ} (h : v1 ≤ v2) : ∀ l : List ℚ, countLt v1 l ≤ countLt v2 l := by
  intro l
  induction l with
  | nil => simp [countLt]
  | cons e rest ih =>
    simp only [countLt]
    by_cases he : e < v1
    · rw [if_pos he, if_pos (lt_of_lt_of_le he h)]; omega
    · rw [if_neg he]; split <;> omega

theorem countLt_pos {v e : ℚ} {l : List ℚ} (hmem : e ∈ l) (hlt : e < v) :
    0 < countLt v l := by
  induction l with
  | nil => simp at hmem
  | cons x rest ih =>
    simp only [countLt]
    rcases List.mem_cons.mp hmem with h | h
    · subst h; rw [if_pos hlt]; omega
    · have := ih h; omega

theorem countLt_eq_zero {v : ℚ} {l : List ℚ} (h : ∀ e ∈ l, v ≤ e) :
    countLt v l = 0 := by
  induction l with
  | nil => simp [countLt]
  | cons x rest ih =>
    simp only [countLt]
    rw [if_neg (not_lt.mpr (h x (List.mem_cons_self x rest)))]
    simp [ih fun e he => h e (List.mem_cons_of_mem x he)]

theorem get?_mem_of_lt {l : List String} {i : ℕ} (h : i < l.length) :
    ∃ a, l.get? i = some a ∧ a ∈ l :=
  ⟨l.get ⟨i, h⟩, List.get?_eq_get h, List.get_mem l i h⟩

theorem indexOf_of_get? {l : List String} (hn : l.Nodup) :
    ∀ {i : ℕ} {a : String}, l.get? i = some a → l.indexOf a = i := by
  induction l with
  | nil => intro i a h; simp at h
  | cons b t ih =>
    intro i a h
    cases i with
    | zero =>
      rw [List.get?_cons_zero, Option.some_inj] at h
      subst h
      simp
    | succ j =>
      rw [List.get?_cons_succ] at h
      have ha : a ∈ t := List.get?_mem h
      have hba : ¬ (b = a) := fun e => (List.nodup_cons.mp hn).1 (e ▸ ha)
      have := ih (List.nodup_cons.mp hn).2 h
      rw [List.indexOf_cons, beq_eq_false_iff_ne.mpr hba, cond_false]
      omega

/-- Monotonicity of `classify` on labelled outputs, for any scale with
distinct labels: a larger value lands in a bin with an index at least as
large. -/
theorem classify_def (s : GradeScale) (v : ℚ) :
    classify s v =
      if s.hasNegInfLower then s.labels.get? (countLt v s.cuts)
      else if countLt v s.cuts = 0 then none
      else s.labels.get? (countLt v s.cuts - 1) := rfl

theorem classify_mono (s : GradeScale) (hn : s.labels.Nodup) {v1 v2 : ℚ}
    (h12 : v1 ≤ v2) {l1 l2 : String}
    (h1 : classify s v1 = some l1) (h2 : classify s v2 = some l2) :
    s.labels.indexOf l1 ≤ s.labels.indexOf l2 := by
  have hc : countLt v1 s.cuts ≤ countLt v2 s.cuts := countLt_mono h12 _
  rw [classify_def] at h1 h2
  cases hb : s.hasNegInfLower
  · rw [hb, if_neg (show ¬ ((false : Bool) = true) by simp)] at h1 h2
    by_cases hz1 : countLt v1 s.cuts = 0
    · rw [if_pos hz1] at h1; simp at h1
    by_cases hz2 : countLt v2 s.cuts = 0
    · rw [if_pos hz2] at h2; simp at h2
    rw [if_neg hz1] at h1
    rw [if_neg hz2] at h2
    rw [indexOf_of_get? hn h1, indexOf_of_get? hn h2]
    omega
  · rw [hb, if_pos rfl] at h1 h2
    rw [indexOf_of_get? hn h1, indexOf_of_get? hn h2]
    exact hc

/-! ## Claim theorems -/

/-- C10: the four 불쾌지수 (discomfort index) implementations are
equivalent: on every pair of finite temperature and humidity values each
script computes the identical value
`0.81·T + 0.01·H·(0.99·T − 14.3) + 46.3`. -/
theorem discomfort_formulas_agree (t h : ℚ) :
    discomfortIndexUtf8 t h = discomfortIndexKorean t h ∧
    discomfortIndexUtf8 t h = discomfortIndexFinal t h ∧
    discomfortIndexUtf8 t h = discomfortIndexPipeline t h ∧
    discomfortIndexUtf8 t h = 0.81 * t + 0.01 * h * (0.99 * t - 14.3) + 46.3 :=
  ⟨rfl, rfl, rfl, rfl⟩

/-- C5: constructing a CompositeIndex with weights summing to 1.1 fails
with `InvalidWeightError`, weights 0.6/0.4 succeed, and every composite
computation hardcoded in the scripts uses weights that sum exactly
to 1. -/
theorem composite_weight_validation :
    mkCompositeIndex [0.5, 0.3, 0.3] = .error "InvalidWeightError" ∧
    mkCompositeIndex [0.6, 0.4] = .ok [0.6, 0.4] ∧
    vulnerabilityWeights.sum = 1 ∧
    environmentalRiskWeights.sum = 1 ∧
    runAnalysisWeights.sum = 1 := by
  refine ⟨?_, ?_, ?_, ?_, ?_⟩
  · norm_num [mkCompositeIndex, abs_le]
  · norm_num [mkCompositeIndex, abs_le]
  · norm_num [vulnerabilityWeights]
  · norm_num [environmentalRiskWeights]
  · norm_num [runAnalysisWeights]

/-- C2 counterexample: the discomfort-index grading
(`bins=[0, 68, 75, 80, 85, inf]`) leaves the finite value `0`
unlabelled — `pd.cut` yields NaN at or below the lowest edge — so
classification is not total over finite values for every script scale. -/
theorem discomfort_zero_unlabeled : classify discomfortScale 0 = none := by decide

/-- For any scale with a finite lowest edge `0`, no `-inf` bottom, only
nonnegative edges and at least as many labels as finite edges: every
value strictly above `0` receives exactly one declared label, and every
value `≤ 0` receives none (`pd.cut` yields NaN there). -/
theorem coverage_zero_edge_scale (s : GradeScale) (h0 : (0:ℚ) ∈ s.cuts)
    (hneg : s.hasNegInfLower = false) (hlow : ∀ e ∈ s.cuts, (0:ℚ) ≤ e)
    (hlen : s.cuts.length ≤ s.labels.length) :
    (∀ v : ℚ, 0 < v → ∃ l, classify s v = some l ∧ l ∈ s.labels) ∧
    (∀ v : ℚ, v ≤ 0 → classify s v = none) := by
  constructor
  · intro v hv
    have hpos : 0 < countLt v s.cuts := countLt_pos h0 hv
    have hle : countLt v s.cuts ≤ s.cuts.length := countLt_le_length v s.cuts
    have hlt : countLt v s.cuts - 1 < s.labels.length := by omega
    obtain ⟨l, hget, hmem⟩ := get?_mem_of_lt hlt
    refine ⟨l, ?_, hmem⟩
    rw [classify_def, hneg, if_neg (show ¬ ((false : Bool) = true) by simp),
      if_neg (by omega : ¬ countLt v s.cuts = 0)]
    exact hget
  · intro v hv
    have hz : countLt v s.cuts = 0 :=
      countLt_eq_zero fun e he => le_trans hv (hlow e he)
    rw [classify_def, hneg, if_neg (show ¬ ((false : Bool) = true) by simp), if_pos hz]

/-- C2 amended: the heat-risk scale (lowest edge `-inf`) labels every
finite value with exactly one declared label; each scale whose lowest
finite edge is `0` — the discomfort-index, family-structure and UV
scales — labels every value strictly above `0` with exactly one
declared label, but leaves every value `≤ 0` unlabelled. -/
theorem classification_coverage :
    (∀ v : ℚ, ∃ l, classify heatRiskScale v = some l ∧ l ∈ heatRiskScale.labels) ∧
    ∀ s ∈ [discomfortScale, familyScale, uvScale],
      (∀ v : ℚ, 0 < v → ∃ l, classify s v = some l ∧ l ∈ s.labels) ∧
      (∀ v : ℚ, v ≤ 0 → classify s v = none) := by
  constructor
  · intro v
    have hlen : countLt v heatRiskScale.cuts < heatRiskScale.labels.length := by
      have h := countLt_le_length v heatRiskScale.cuts
      have hc : heatRiskScale.cuts.length = 4 := rfl
      have hl : heatRiskScale.labels.length = 5 := rfl
      omega
    obtain ⟨l, hget, hmem⟩ := get?_mem_of_lt hlen
    refine ⟨l, ?_, hmem⟩
    rw [classify_def, if_pos (show heatRiskScale.hasNegInfLower = true from rfl)]
    exact hget
  · intro s hs
    fin_cases hs
    · exact coverage_zero_edge_scale discomfortScale (by decide) rfl (by decide) (by decide)
    · exact coverage_zero_edge_scale familyScale (by decide) rfl (by decide) (by decide)
    · exact coverage_zero_edge_scale uvScale (by decide) rfl (by decide) (by decide)

/-- C2 witness: the amended coverage theorem applied to the discomfort
scale at the value 70 (inside the labelled range) yields a declared
label. -/
theorem classification_coverage_witness :
    ∃ l, classify discomfortScale 70 = some l ∧ l ∈ discomfortScale.labels :=
  (classification_coverage.2 discomfortScale (by decide)).1 70 (by norm_num)

/-- C7: for every grade scale used by the scripts and every pair of
finite values `v1 < v2` that both receive a label, the ordinal rank of
the label of `v1` in the label sequence of the scale is at most that of the
label of `v2`: a higher input never maps to a strictly lower grade. -/
theorem classification_monotone (s : GradeScale) (hs : s ∈ programScales)
    {v1 v2 : ℚ} (h12 : v1 < v2) {l1 l2 : String}
    (h1 : classify s v1 = some l1) (h2 : classify s v2 = some l2) :
    s.labels.indexOf l1 ≤ s.labels.indexOf l2 := by
  have hn : s.labels.Nodup := by fin_cases hs <;> decide
  exact classify_mono s hn (le_of_lt h12) h1 h2

/-- C7 witness: monotonicity applied on the heat-risk scale at 26 < 33
(labels 주의 and 위험). -/
theorem classification_monotone_witness :
    heatRiskScale.labels.indexOf "주의" ≤ heatRiskScale.labels.indexOf "위험" :=
  classification_monotone heatRiskScale (by decide) (by decide : (26:ℚ) < 33)
    (by decide : classify heatRiskScale 26 = some "주의")
    (by decide : classify heatRiskScale 33 = some "위험")

/-! ## Evaluation lemmas for `pdQcut` and the score pipeline -/

theorem qcutEdges_200_100 : qcutEdges [200, 100] 5 = [100, 120, 140, 160, 180, 200] := by
  have hr : List.range 6 = [0, 1, 2, 3, 4, 5] := rfl
  have hs : List.insertionSort (· ≤ ·) [(200:ℚ), 100] = [100, 200] := by decide
  norm_num [qcutEdges, quantileOf, interp, hr, hs]

theorem qcutEdges_100_200 : qcutEdges [100, 200] 5 = [100, 120, 140, 160, 180, 200] := by
  have hr : List.range 6 = [0, 1, 2, 3, 4, 5] := rfl
  have hs : List.insertionSort (· ≤ ·) [(100:ℚ), 200] = [100, 200] := by decide
  norm_num [qcutEdges, quantileOf, interp, hr, hs]

theorem qcut_200_100 :
    pdQcut [200, 100] 5 densityLabels = .ok [some "매우높음", some "매우낮음"] := by
  simp only [pdQcut, qcutEdges_200_100]
  norm_num [dedupAdj, qcutAssign, countLt, densityLabels]

theorem qcut_100_200 :
    pdQcut [100, 200] 5 densityLabels = .ok [some "매우낮음", some "매우높음"] := by
  simp only [pdQcut, qcutEdges_100_200]
  norm_num [dedupAdj, qcutAssign, countLt, densityLabels]

theorem qcutEdges_1234 : qcutEdges [1, 2, 3, 4] 5 = [1, 8/5, 11/5, 14/5, 17/5, 4] := by
  have hr : List.range 6 = [0, 1, 2, 3, 4, 5] := rfl
  have hs : List.insertionSort (· ≤ ·) [(1:ℚ), 2, 3, 4] = [1, 2, 3, 4] := by decide
  norm_num [qcutEdges, quantileOf, interp, hr, hs]

theorem qcut_1234 :
    pdQcut [1, 2, 3, 4] 5 densityLabels =
      .ok [some "매우낮음", some "낮음", some "높음", some "매우높음"] := by
  simp only [pdQcut, qcutEdges_1234]
  norm_num [dedupAdj, qcutAssign, countLt, densityLabels]

theorem qcutEdges_replicate6 (c : ℚ) : qcutEdges [c, c, c, c, c, c] 5 = [c, c, c, c, c, c] := by
  have hr : List.range 6 = [0, 1, 2, 3, 4, 5] := rfl
  have hs : List.insertionSort (· ≤ ·) [c, c, c, c, c, c] = [c, c, c, c, c, c] := by
    simp [List.insertionSort, List.orderedInsert]
  norm_num [qcutEdges, quantileOf, interp, hr, hs]

theorem qcut_replicate6 (c : ℚ) :
    pdQcut (List.replicate 6 c) 5 densityLabels =
      .error "Bin labels must be one fewer than the number of bin edges" := by
  have hrep : List.replicate 6 c = [c, c, c, c, c, c] := rfl
  rw [hrep]
  simp only [pdQcut, qcutEdges_replicate6]
  simp [dedupAdj, densityLabels]

theorem qcutEdges_116 : qcutEdges [1, 1, 1, 1, 1, 2] 5 = [1, 1, 1, 1, 1, 2] := by
  have hr : List.range 6 = [0, 1, 2, 3, 4, 5] := rfl
  have hs : List.insertionSort (· ≤ ·) [(1:ℚ), 1, 1, 1, 1, 2] = [1, 1, 1, 1, 1, 2] := by decide
  norm_num [qcutEdges, quantileOf, interp, hr, hs]

theorem vulnScores_fwd : vulnerabilityScores [100, 200] [1, 4] = .ok [20, 40] := by
  rw [vulnerabilityScores, qcut_100_200]
  have hfam : List.map (classify familyScale) [1, 4] =
      [some "1인가구형", some "대가족형"] := by decide
  have hfd : pdFactorize [some "매우낮음", some "매우높음"] = [0, 1] := by decide
  have hff : pdFactorize [some "1인가구형", some "대가족형"] = [0, 1] := by decide
  simp only [Except.map, hfam, hfd, hff]
  norm_num [List.zipWith]

theorem vulnScores_rev : vulnerabilityScores [200, 100] [4, 1] = .ok [20, 40] := by
  rw [vulnerabilityScores, qcut_200_100]
  have hfam : List.map (classify familyScale) [4, 1] =
      [some "대가족형", some "1인가구형"] := by decide
  have hfd : pdFactorize [some "매우높음", some "매우낮음"] = [0, 1] := by decide
  have hff : pdFactorize [some "대가족형", some "1인가구형"] = [0, 1] := by decide
  simp only [Except.map, hfam, hfd, hff]
  norm_num [List.zipWith]

/-! ## Remaining claim theorems -/

/-- C4 counterexample: a column whose quantile edges collide
(`[1, 1, 1, 1, 1, 2]` with q = 5) makes the qcut call of the scripts fail
with the pandas `ValueError: Bin labels must be one fewer than the number of bin edges` — construction
does not silently collapse, because every call site passes an explicit
5-label list that can no longer match the reduced bin count. -/
theorem qcut_duplicate_edges_fails :
    pdQcut [1, 1, 1, 1, 1, 2] 5 densityLabels =
      .error "Bin labels must be one fewer than the number of bin edges" := by
  simp only [pdQcut, qcutEdges_116]
  simp [dedupAdj, densityLabels]

/-- C4 amended: with the explicit labels the call sites pass, duplicate
quantile edges always abort the qcut call with the label-mismatch
ValueError (shown for every constant 6-value column, where the edges
collapse to one bin); no silent collapse and no label-dropping occurs. -/
theorem qcut_duplicate_edges_error (c : ℚ) :
    pdQcut (List.replicate 6 c) 5 densityLabels =
      .error "Bin labels must be one fewer than the number of bin edges" :=
  qcut_replicate6 c

/-- C6 counterexample: the column `[1, 2, 3, 4]` has only 4 < 5 distinct
(non-missing) values, yet `pd.qcut(col, 5, labels, duplicates=drop)`
succeeds — the interpolated quantile edges are all distinct — so no
`InsufficientDataError` (nor any error) is raised. -/
theorem qcut_four_distinct_values_succeed :
    ([1, 2, 3, 4] : List ℚ).dedup.length < 5 ∧
    pdQcut [1, 2, 3, 4] 5 densityLabels =
      .ok [some "매우낮음", some "낮음", some "높음", some "매우높음"] :=
  ⟨by decide, qcut_1234⟩

/-- C6 amended: qcut enforces no minimum count of distinct values and
knows no `InsufficientDataError`: a 4-distinct-value column succeeds
with q = 5, while a column with colliding quantile edges (all values
equal) fails — with the pandas label-mismatch ValueError. -/
theorem qcut_no_min_distinct_check :
    (∃ out, pdQcut [1, 2, 3, 4] 5 densityLabels = .ok out) ∧
    pdQcut [7, 7, 7, 7, 7, 7] 5 densityLabels =
      .error "Bin labels must be one fewer than the number of bin edges" ∧
    "Bin labels must be one fewer than the number of bin edges" ≠ "InsufficientDataError" :=
  ⟨⟨_, qcut_1234⟩, qcut_replicate6 7, by decide⟩

/-- C1: the code maps each grade to a `pd.factorize` first-appearance
code, not to its declared 1-based rank: on the batch with
total-population column [200, 100] and household-average column [4, 1],
the first row is graded 매우높음 / 대가족형, whose declared-position
ranks (5 of 5 and 4 of 4) give `20 × (0.6×5 + 0.4×4) = 92`, but the
script assigns it the score 20. -/
theorem vulnerability_score_uses_factorize_not_rank :
    vulnerabilityScores [200, 100] [4, 1] = .ok [20, 40] ∧
    pdQcut [200, 100] 5 densityLabels = .ok [some "매우높음", some "매우낮음"] ∧
    classify familyScale 4 = some "대가족형" ∧
    specVulnerabilityScore "매우높음" "대가족형" = 92 ∧
    ((20 : ℚ) ≠ 92) := by
  refine ⟨vulnScores_rev, qcut_200_100, by decide, ?_, by norm_num⟩
  have h1 : densityLabels.indexOf "매우높음" = 4 := rfl
  have h2 : familyScale.labels.indexOf "대가족형" = 3 := rfl
  rw [specVulnerabilityScore, h1, h2]
  norm_num

/-- C9: the composite vulnerability scores are not invariant under
permutation of the input rows: the two batches below hold the same
rows (observations) in opposite orders, and the observation
(총인구수 200, 세대당평균인구 4) — row 1 of the first batch, row 0 of
the second — receives the score 40 in one batch and 20 in the other,
because `pd.factorize` codes labels by first appearance in the batch. -/
theorem factorize_scores_not_permutation_invariant :
    (List.zip [(100:ℚ), 200] [(1:ℚ), 4]).Perm (List.zip [(200:ℚ), 100] [(4:ℚ), 1]) ∧
    (List.zip [(100:ℚ), 200] [(1:ℚ), 4]).get? 1 =
      (List.zip [(200:ℚ), 100] [(4:ℚ), 1]).get? 0 ∧
    vulnerabilityScores [100, 200] [1, 4] = .ok [20, 40] ∧
    vulnerabilityScores [200, 100] [4, 1] = .ok [20, 40] ∧
    ([20, 40] : List ℚ).get? 1 ≠ ([20, 40] : List ℚ).get? 0 := by
  refine ⟨?_, by decide, vulnScores_fwd, vulnScores_rev, by decide⟩
  decide

/-- C3 counterexample: on the batch `[("30",7), ("20",10), ("20",5)]`
the keys of the grouped sum come out in ascending sorted order
`["20", "30"]`, not in the first-seen insertion order `["30", "20"]` —
pandas `groupby` sorts the group keys by default. -/
theorem groupbySum_keys_sorted_not_first_seen :
    (groupbySum [("30", 7), ("20", 10), ("20", 5)]).map Prod.fst = ["20", "30"] ∧
    firstSeenKeys [("30", 7), ("20", 10), ("20", 5)] = ["30", "20"] ∧
    (["20", "30"] : List String) ≠ ["30", "20"] := by
  refine ⟨?_, by decide, by decide⟩
  have hk : List.insertionSort keyLe
      (firstSeenKeys [("30", 7), ("20", 10), ("20", 5)]) = ["20", "30"] := by decide
  rw [groupbySum, hk]
  rfl

/-- C3 amended: grouped sum aggregation partitions the batch by key and
sums the value field per partition — the example batch of the spec yields
{"20": 15, "30": 7} — but the keys of the result appear in ascending
sorted key order (pandas `sort=True` default), not in first-seen
insertion order. -/
theorem groupbySum_spec :
    groupbySum [("20", 10), ("20", 5), ("30", 7)] = [("20", 15), ("30", 7)] ∧
    (∀ rows : List (String × ℚ), List.Sorted keyLe ((groupbySum rows).map Prod.fst)) ∧
    (∀ (rows : List (String × ℚ)) (k : String) (v : ℚ),
      (k, v) ∈ groupbySum rows → v = sumForKey rows k) := by
  refine ⟨?_, ?_, ?_⟩
  · have hk : List.insertionSort keyLe
        (firstSeenKeys [("20", 10), ("20", 5), ("30", 7)]) = ["20", "30"] := by decide
    rw [groupbySum, hk]
    have h20 : sumForKey [("20", 10), ("20", 5), ("30", 7)] "20" = 15 := by
      have hf : List.filter (fun r => r.1 == "20")
          [(("20":String), (10:ℚ)), ("20", 5), ("30", 7)] = [("20", 10), ("20", 5)] := by decide
      simp only [sumForKey, hf, List.map_cons, List.map_nil]
      norm_num
    have h30 : sumForKey [("20", 10), ("20", 5), ("30", 7)] "30" = 7 := by
      have hf : List.filter (fun r => r.1 == "30")
          [(("20":String), (10:ℚ)), ("20", 5), ("30", 7)] = [("30", 7)] := by decide
      simp only [sumForKey, hf, List.map_cons, List.map_nil]
      norm_num
    rw [List.map_cons, List.map_cons, List.map_nil, h20, h30]
  · intro rows
    rw [groupbySum]
    have hm : ∀ ks : List String,
        (ks.map fun k => (k, sumForKey rows k)).map Prod.fst = ks := by
      intro ks
      induction ks with
      | nil => rfl
      | cons a t ih => simp [ih]
    rw [hm]
    exact List.sorted_insertionSort keyLe _
  · intro rows k v hmem
    rw [groupbySum] at hmem
    obtain ⟨k2, _, heq⟩ := List.mem_map.mp hmem
    cases heq
    rfl

/-- C3 witness: the per-partition-sum clause of the amended theorem
applied to the membership of ("20", 15) in the example result. -/
theorem groupbySum_spec_witness :
    (15 : ℚ) = sumForKey [("20", 10), ("20", 5), ("30", 7)] "20" :=
  groupbySum_spec.2.2 _ "20" 15
    (by rw [groupbySum_spec.1]; exact List.mem_cons_self _ _)

/-- Full evaluation of `analyze_population_vulnerability` on the example
state: the qcut succeeds and the three derived columns are appended to
the stored table, which is also recorded in `results`. -/
theorem analysis_eval :
    analyzePopulationVulnerability exampleState =
      .ok { popData := analyzedPopTable,
            results := [("population_analysis", analyzedPopTable)] } := by
  have h3 : colNums (((exampleState.popData.get? 3).map Prod.snd).getD []) = [200, 100] := rfl
  have h5 : colNums (((exampleState.popData.get? 5).map Prod.snd).getD []) = [4, 1] := rfl
  rw [analyzePopulationVulnerability, h3, h5, qcut_200_100]
  have hfam : List.map (classify familyScale) [4, 1] =
      [some "대가족형", some "1인가구형"] := by decide
  have hfd : pdFactorize [some "매우높음", some "매우낮음"] = [0, 1] := by decide
  have hff : pdFactorize [some "대가족형", some "1인가구형"] = [0, 1] := by decide
  have hset : ∀ d f sc : List Val,
      setCol (setCol (setCol exampleState.popData "인구밀도등급" d) "가족구조지수" f)
        "취약성점수" sc =
      examplePopTable ++ [("인구밀도등급", d), ("가족구조지수", f), ("취약성점수", sc)] :=
    fun d f sc => rfl
  simp only [Except.map, hfam, hfd, hff, hset]
  norm_num [List.zipWith, analyzedPopTable, examplePopTable, exampleState]

/-- C8 counterexample: `analyze_population_vulnerability` does not leave
its input batch unchanged: after the call, `self.pop_data` carries three
extra columns (인구밀도등급, 가족구조지수, 취약성점수) — the column
assignments mutate the stored table in place, and the mutated table also
persists in `self.results`. -/
theorem analysis_mutates_state :
    (popDataAfterAnalysis exampleState).map Prod.fst ≠
      exampleState.popData.map Prod.fst ∧
    popDataAfterAnalysis exampleState ≠ exampleState.popData := by
  have he : popDataAfterAnalysis exampleState = analyzedPopTable := by
    rw [popDataAfterAnalysis, analysis_eval]
  constructor
  · rw [he]
    decide
  · rw [he]
    intro h
    exact absurd (congrArg (List.map Prod.fst) h) (by decide)

theorem filter_setCol {names : List String} (t : List Column) {name : String}
    (vals : List Val) (hmem : name ∈ names) :
    (setCol t name vals).filter (fun c => decide (c.1 ∉ names)) =
      t.filter (fun c => decide (c.1 ∉ names)) := by
  induction t with
  | nil =>
    simp [setCol, hmem]
  | cons c rest ih =>
    rw [setCol]
    by_cases hc : c.1 = name
    · rw [if_pos hc]
      simp only [List.filter_cons]
      have h1 : decide (((name, vals) : Column).1 ∉ names) = false := by simp [hmem]
      have h2 : decide (c.1 ∉ names) = false := by simp [hc, hmem]
      rw [h1, h2]
      simp
    · rw [if_neg hc]
      simp only [List.filter_cons, ih]

/-- C8 amended: the operation mutates the stored batch — the three
derived columns 인구밀도등급 / 가족구조지수 / 취약성점수 are written
onto `self.pop_data` (overwritten in place when already present,
appended otherwise) and the mutated table persists in `self.results` —
but every other column of the table is preserved exactly: the
sub-list of columns whose names are not among the three derived names
is unchanged by the call (and on a qcut error the table is untouched). -/
theorem analysis_preserves_other_columns (st : AnalysisState) :
    (popDataAfterAnalysis st).filter (fun c => decide (c.1 ∉ derivedColumnNames)) =
      st.popData.filter (fun c => decide (c.1 ∉ derivedColumnNames)) := by
  rw [popDataAfterAnalysis]
  cases hq : pdQcut (colNums (((st.popData.get? 3).map Prod.snd).getD []))
      5 densityLabels with
  | error e =>
    rw [analyzePopulationVulnerability, hq]
    simp only [Except.map]
  | ok density =>
    rw [analyzePopulationVulnerability, hq]
    simp only [Except.map]
    rw [filter_setCol _ _ (by decide : "취약성점수" ∈ derivedColumnNames),
      filter_setCol _ _ (by decide : "가족구조지수" ∈ derivedColumnNames),
      filter_setCol _ _ (by decide : "인구밀도등급" ∈ derivedColumnNames)]

end BigData
